import Mathlib

/-!
Verification development for the zink compiler sources.

Part 1 embeds `src/abi/src/selector.rs`: the `keccak256` helper (the
Keccak-256 algorithm computed by the `sha3` crate's `Keccak256` hasher,
spelled out here in full), the `parse` helper taking the first 4 bytes of
the digest, and the `Abi::signature` / `Abi::selector` methods.

Part 2 embeds the macro-generated `VisitOperator` implementation of
`src/codegen/src/visitor/mod.rs` as a finite dispatch table: one entry per
generated visitor method, recording the method name, the wasm proposal the
operator belongs to, the visitor's declared immediate parameters, and what
the generated body does (which assembler primitive it invokes and with
which arguments).

Bytes are modelled as `Nat` values below 256, 64-bit lanes as `Nat` values
below 2^64 with explicit masking.
-/

/-! Keccak-256, as computed by `sha3::Keccak256` (original Keccak padding
with domain byte 0x01, rate 1088 bits = 136 bytes, 256-bit digest). -/

/-- One step of the degree-8 LFSR (feedback polynomial
`x^8 + x^6 + x^5 + x^4 + 1`) that generates the Keccak round-constant
bits. -/
def rcAdvance (r : Nat) : Nat :=
  let r2 := r <<< 1
  if r2 &&& 0x100 == 0 then r2 else r2 ^^^ 0x171

/-- The LFSR register after `t` steps, starting from 1. -/
def rcReg : Nat → Nat
  | 0 => 1
  | t + 1 => rcAdvance (rcReg t)

/-- Round-constant bit `rc(t)` of the Keccak specification. -/
def rcBit (t : Nat) : Nat :=
  rcReg t &&& 1

/-- Round constant of round `i` of `Keccak-f[1600]`: bit `rc(j + 7 i)`
placed at lane position `2^j - 1` for `j = 0..6`. -/
def roundConstant (i : Nat) : Nat :=
  (List.range 7).foldl (fun acc j => acc ||| (rcBit (j + 7 * i) <<< (2 ^ j - 1))) 0

/-- Round constants of the 24 rounds of `Keccak-f[1600]`. -/
def roundConstants : List Nat :=
  (List.range 24).map roundConstant

/-- Mask keeping the low 64 bits of a lane. -/
def w64mask : Nat := 0xFFFFFFFFFFFFFFFF

/-- Rotate a 64-bit lane left by `n` bits (`0 ≤ n < 64`). -/
def rotl64 (x n : Nat) : Nat :=
  ((x <<< n) ||| (x >>> (64 - n))) &&& w64mask

/-- Keccak state: 25 lanes, lane `(x, y)` stored at index `x + 5 * y`. -/
def thetaStep (s : List Nat) : List Nat :=
  let c := (List.range 5).map fun x =>
    ((((s.getD x 0) ^^^ (s.getD (x + 5) 0)) ^^^ (s.getD (x + 10) 0)) ^^^
      (s.getD (x + 15) 0)) ^^^ (s.getD (x + 20) 0)
  let d := (List.range 5).map fun x =>
    (c.getD ((x + 4) % 5) 0) ^^^ rotl64 (c.getD ((x + 1) % 5) 0) 1
  (List.range 25).map fun i => (s.getD i 0) ^^^ (d.getD (i % 5) 0)

/-- Combined rho-and-pi step: entry `i` of the output is the source lane
index and rotation amount feeding output position `i`. -/
def rhoPiTable : List (Nat × Nat) :=
  [(0, 0), (6, 44), (12, 43), (18, 21), (24, 14),
   (3, 28), (9, 20), (10, 3), (16, 45), (22, 61),
   (1, 1), (7, 6), (13, 25), (19, 8), (20, 18),
   (4, 27), (5, 36), (11, 10), (17, 15), (23, 56),
   (2, 62), (8, 55), (14, 39), (15, 41), (21, 2)]

/-- Rho and pi steps of the Keccak round. -/
def rhoPiStep (s : List Nat) : List Nat :=
  rhoPiTable.map fun p => rotl64 (s.getD p.1 0) p.2

/-- Chi step of the Keccak round. -/
def chiStep (s : List Nat) : List Nat :=
  (List.range 25).map fun i =>
    let x := i % 5
    let y := i / 5
    (s.getD i 0) ^^^
      (((s.getD ((x + 1) % 5 + 5 * y) 0) ^^^ w64mask) &&& (s.getD ((x + 2) % 5 + 5 * y) 0))

/-- Iota step: xor the round constant into lane (0, 0). -/
def iotaStep (rc : Nat) (s : List Nat) : List Nat :=
  match s with
  | [] => []
  | a :: rest => (a ^^^ rc) :: rest

/-- One round of `Keccak-f[1600]`. -/
def keccakRound (s : List Nat) (rc : Nat) : List Nat :=
  iotaStep rc (chiStep (rhoPiStep (thetaStep s)))

/-- The full 24-round `Keccak-f[1600]` permutation. -/
def keccakF (s : List Nat) : List Nat :=
  roundConstants.foldl keccakRound s

/-- Little-endian interpretation of up to 8 bytes as one 64-bit lane. -/
def bytesToLane (bs : List Nat) : Nat :=
  bs.foldr (fun b acc => b + 256 * acc) 0

/-- Split a byte list into 64-bit lanes (little-endian, 8 bytes each). -/
def toLanes : List Nat → List Nat
  | [] => []
  | b0 :: b1 :: b2 :: b3 :: b4 :: b5 :: b6 :: b7 :: rest =>
      bytesToLane [b0, b1, b2, b3, b4, b5, b6, b7] :: toLanes rest
  | l => [bytesToLane l]

/-- Split a list into blocks of 136 bytes; the fuel argument (an upper
bound on the number of blocks) makes the recursion structural. -/
def toBlocksAux : Nat → List Nat → List (List Nat)
  | _, [] => []
  | 0, l => [l]
  | n + 1, b :: bs => (b :: bs).take 136 :: toBlocksAux n ((b :: bs).drop 136)

/-- Split a padded message into rate-sized blocks of 136 bytes. -/
def toBlocks (l : List Nat) : List (List Nat) :=
  toBlocksAux l.length l

/-- Keccak (pre-NIST) padding: domain byte 0x01, final bit 0x80, rate 136. -/
def pad101 (msg : List Nat) : List Nat :=
  let padLen := 136 - msg.length % 136
  if padLen = 1 then msg ++ [0x81]
  else msg ++ 0x01 :: (List.replicate (padLen - 2) 0 ++ [0x80])

/-- Absorb one 136-byte block into the state and permute. -/
def absorbBlock (s : List Nat) (block : List Nat) : List Nat :=
  let lanes := toLanes block
  keccakF ((List.range 25).map fun i =>
    (s.getD i 0) ^^^ (if i < 17 then lanes.getD i 0 else 0))

/-- Generate a keccak hash of the input, as `keccak256` in
`src/abi/src/selector.rs` does via the `sha3` crate: the 32-byte digest,
little-endian bytes of the first four state lanes. -/
def keccak256 (input : List Nat) : List Nat :=
  let s := (toBlocks (pad101 input)).foldl absorbBlock (List.replicate 25 0)
  (List.range 32).map fun i => ((s.getD (i / 8) 0) >>> (8 * (i % 8))) % 256

/-- Parse selector from bytes (`parse` in `src/abi/src/selector.rs`): the
first 4 bytes of the keccak digest. -/
def parse (bytes : List Nat) : List Nat :=
  (keccak256 bytes).take 4

/-- UTF-8 encoding of one code point, as Rust's `str::as_bytes` exposes. -/
def utf8Bytes (c : Nat) : List Nat :=
  if c < 0x80 then [c]
  else if c < 0x800 then [0xC0 ||| (c >>> 6), 0x80 ||| (c &&& 0x3F)]
  else if c < 0x10000 then
    [0xE0 ||| (c >>> 12), 0x80 ||| ((c >>> 6) &&& 0x3F), 0x80 ||| (c &&& 0x3F)]
  else
    [0xF0 ||| (c >>> 18), 0x80 ||| ((c >>> 12) &&& 0x3F),
     0x80 ||| ((c >>> 6) &&& 0x3F), 0x80 ||| (c &&& 0x3F)]

/-- Byte encoding of a string (Rust `str::as_bytes`). -/
def strBytes (s : String) : List Nat :=
  (s.data.map fun c => utf8Bytes c.toNat).flatten

/-- Modelled from the spec: one entry of `Abi.inputs`. The `Abi` struct
definition itself is not among the provided sources; `selector.rs` reads
`self.name`, `self.inputs` and each input's `ty`, and the spec describes a
function descriptor as a name plus ordered parameters, where parameters
have argument names that do not enter the signature. -/
structure Param where
  name : String
  ty : String
deriving DecidableEq

/-- Modelled from the spec: the `Abi` function descriptor — a function
name and its ordered parameter list. -/
structure Abi where
  name : String
  inputs : List Param
deriving DecidableEq

/-- Rust's `[&str]::join(sep)`: concatenation with a separator between
consecutive elements. -/
def strJoin (sep : String) : List String → String
  | [] => ""
  | [x] => x
  | x :: y :: xs => x ++ sep ++ strJoin sep (y :: xs)

/-- Get function signature (`Abi::signature` in `src/abi/src/selector.rs`):
the name, then the parameter type names joined with `,`, in parentheses. -/
def Abi.signature (a : Abi) : String :=
  a.name ++ "(" ++ strJoin "," (a.inputs.map Param.ty) ++ ")"

/-- Get function selector (`Abi::selector` in `src/abi/src/selector.rs`). -/
def Abi.selector (a : Abi) : List Nat :=
  parse (strBytes a.signature)

/-! Part 2: the `VisitOperator` implementation generated for `CodeGen` by
the `impl_visit_operator` and `map_wasm_operators` macros in
`src/codegen/src/visitor/mod.rs`, embedded as a finite table with one
entry per generated visitor method. -/

/-- Declared immediate-parameter types of a visitor method. -/
inductive ParamTy where
  | memarg
  | u32
  | u8
  | i32imm
  | i64imm
  | f32imm
  | f64imm
  | blocktype
  | brtable
deriving DecidableEq

/-- Concrete immediate arguments handed to a visitor method at run time.
`memarg` carries the byte offset and the alignment hint of a wasm
memory-access instruction's `MemArg` immediate. -/
inductive Arg where
  | memarg (offset : Nat) (align : Nat)
  | u32 (v : Nat)
  | u8 (v : Nat)
  | i32imm (v : Int)
  | i64imm (v : Int)
  | f32imm (bits : Nat)
  | f64imm (bits : Nat)
  | blocktype
  | brtable (targets : List Nat) (defaultTarget : Nat)
deriving DecidableEq

/-- Body shape of a generated visitor method.

The `@basic` arm of `map_wasm_operators` emits `self.masm._<prim>()?` —
the primitive is invoked with NO arguments, even when the visitor itself
declares immediate parameters (they are bound as `_arg` and dropped).
The `@field (masm)` arm emits `self.masm._<prim>(<all params>)?` and the
`@field ()` arm emits `self._<prim>(<all params>)?`, both forwarding every
declared parameter.  The generic (non-`@mvp`) arm of
`impl_visit_operator` emits a body that only logs a trace line and
returns `Ok(())`. -/
inductive Body where
  | masmNoArg (prim : String)
  | masmForward (prim : String)
  | selfForward (prim : String)
  | accept
deriving DecidableEq

/-- One generated visitor method: its name, the wasm proposal its operator
belongs to (as tagged by wasmparser's `for_each_operator`), its declared
immediate parameters, and its body shape. -/
structure Entry where
  name : String
  proposal : String
  params : List ParamTy
  body : Body
deriving DecidableEq

/-- One call into the assembler layer: the receiver (`masm` for the
macro-assembler, `self` for `CodeGen`'s own control-flow helpers), the
primitive's name, and the arguments passed to it. -/
structure Call where
  target : String
  prim : String
  args : List Arg
deriving DecidableEq

/-- The `@basic` arm: `visit_<ty>_<wasm>` calling `self.masm._<evm>()`. -/
def mkBasic (ty wasm evm : String) (ps : List ParamTy) : List Entry :=
  [⟨"visit_" ++ ty ++ "_" ++ wasm, "mvp", ps, Body.masmNoArg ("_" ++ evm)⟩]

/-- The `@integer32` arm. -/
def mkInteger32 (wasm evm : String) (ps : List ParamTy) : List Entry :=
  mkBasic "i32" wasm evm ps

/-- The `@integer64` arm. -/
def mkInteger64 (wasm evm : String) (ps : List ParamTy) : List Entry :=
  mkBasic "i64" wasm evm ps

/-- The `@signed` arm: both integer widths, one primitive. -/
def mkSigned (wasm evm : String) (ps : List ParamTy) : List Entry :=
  mkInteger32 wasm evm ps ++ mkInteger64 wasm evm ps

/-- The `@integer` arm: appends `_s` and `_u` to the wasm name, keeping
one and the same target primitive for both. -/
def mkInteger (wasm evm : String) (ps : List ParamTy) : List Entry :=
  mkSigned (wasm ++ "_s") evm ps ++ mkSigned (wasm ++ "_u") evm ps

/-- The `@float32` arm. -/
def mkFloat32 (wasm evm : String) (ps : List ParamTy) : List Entry :=
  mkBasic "f32" wasm evm ps

/-- The `@float64` arm. -/
def mkFloat64 (wasm evm : String) (ps : List ParamTy) : List Entry :=
  mkBasic "f64" wasm evm ps

/-- The `@float` arm: both float widths, one primitive. -/
def mkFloat (wasm evm : String) (ps : List ParamTy) : List Entry :=
  mkFloat32 wasm evm ps ++ mkFloat64 wasm evm ps

/-- The `@signed_and_float` arm: all four numeric types, one primitive. -/
def mkSignedAndFloat (op : String) : List Entry :=
  mkSigned op op [] ++ mkFloat op op []

/-- The `@field (masm)` arm: `visit_<op>` forwarding all of its immediate
parameters to `self.masm._<op>(...)`. -/
def mkMasmField (op : String) (ps : List ParamTy) : List Entry :=
  [⟨"visit_" ++ op, "mvp", ps, Body.masmForward ("_" ++ op)⟩]

/-- The `@field ()` arm: `visit_<op>` forwarding all of its immediate
parameters to `self._<op>(...)`. -/
def mkGlobalField (op : String) (ps : List ParamTy) : List Entry :=
  [⟨"visit_" ++ op, "mvp", ps, Body.selfForward ("_" ++ op)⟩]

/-- The generic arm of `impl_visit_operator`: for an operator of a
non-`@mvp` proposal, a visitor whose body traces the operator name and
returns `Ok(())` without emitting anything. -/
def mkNonMvp (proposal op : String) (ps : List ParamTy) : List Entry :=
  [⟨"visit_" ++ op, proposal, ps, Body.accept⟩]

/-- The complete set of visitor methods generated inside
`impl VisitOperator for CodeGen`, in the expansion order of the
`map_wasm_operators!` invocation (lines 182-281 of
`src/codegen/src/visitor/mod.rs`), followed by the methods the generic arm
of `impl_visit_operator` generates for the non-`@mvp` operators of
wasmparser's `for_each_operator` enumeration (a representative subset of
those operators is listed; every one of them expands through the same
generic arm to the same trace-and-accept body). -/
def visitorTable : List Entry :=
  (["add", "sub", "mul", "eq", "ne"].map mkSignedAndFloat).flatten
  ++ (["div", "lt", "gt"].map fun x =>
        mkSigned (x ++ "_s") ("s" ++ x) [] ++ mkSigned (x ++ "_u") x []
          ++ mkFloat x x []).flatten
  ++ (["and", "clz", "ctz", "eqz", "or", "popcnt", "rotl", "rotr", "shl", "xor"].map
        fun s => mkSigned s s []).flatten
  ++ (["shr", "trunc_f32", "trunc_f64"].map fun i => mkInteger i i []).flatten
  ++ (["abs", "ceil", "copysign", "floor", "max", "min", "nearest", "neg", "sqrt",
       "convert_i32_s", "convert_i32_u", "convert_i64_s", "convert_i64_u",
       "trunc"].map fun f => mkFloat f f []).flatten
  ++ ([("ge", "sgt"), ("le", "slt")].map fun p =>
        mkInteger p.1 p.2 [] ++ mkFloat p.1 p.2 []).flatten
  ++ ([("rem", "mod")].map fun p =>
        mkSigned (p.1 ++ "_s") ("s" ++ p.2) [] ++ mkSigned (p.1 ++ "_u") p.2 []).flatten
  ++ (["load"].map fun m =>
        mkSigned m m [ParamTy.memarg] ++ mkFloat m m [ParamTy.memarg]).flatten
  ++ (["load8", "load16"].map fun m => mkInteger m m [ParamTy.memarg]).flatten
  ++ (["load32"].map fun m =>
        mkInteger64 (m ++ "_s") m [ParamTy.memarg]
          ++ mkInteger64 (m ++ "_u") m [ParamTy.memarg]).flatten
  ++ (["store8", "store16"].map fun m => mkSigned m m [ParamTy.memarg]).flatten
  ++ (["store"].map fun m =>
        mkSigned m m [ParamTy.memarg] ++ mkFloat m m [ParamTy.memarg]).flatten
  ++ (["store32"].map fun m => mkInteger64 m m [ParamTy.memarg]).flatten
  ++ mkMasmField "drop" []
  ++ mkMasmField "memory_grow" [ParamTy.u32, ParamTy.u8]
  ++ mkMasmField "memory_size" [ParamTy.u32, ParamTy.u8]
  ++ mkMasmField "i32_const" [ParamTy.i32imm]
  ++ mkMasmField "i64_const" [ParamTy.i64imm]
  ++ mkMasmField "f32_const" [ParamTy.f32imm]
  ++ mkMasmField "f64_const" [ParamTy.f64imm]
  ++ mkMasmField "i32_wrap_i64" []
  ++ mkMasmField "i64_extend_i32_s" []
  ++ mkMasmField "i64_extend_i32_u" []
  ++ mkMasmField "f32_demote_f64" []
  ++ mkMasmField "f64_promote_f32" []
  ++ mkMasmField "i32_reinterpret_f32" []
  ++ mkMasmField "i64_reinterpret_f64" []
  ++ mkMasmField "f32_reinterpret_i32" []
  ++ mkMasmField "f64_reinterpret_i64" []
  ++ mkMasmField "return" []
  ++ mkGlobalField "else" []
  ++ mkGlobalField "select" []
  ++ mkGlobalField "end" []
  ++ mkGlobalField "nop" []
  ++ mkGlobalField "unreachable" []
  ++ mkGlobalField "if" [ParamTy.blocktype]
  ++ mkGlobalField "block" [ParamTy.blocktype]
  ++ mkGlobalField "loop" [ParamTy.blocktype]
  ++ mkGlobalField "br" [ParamTy.u32]
  ++ mkGlobalField "br_if" [ParamTy.u32]
  ++ mkGlobalField "br_table" [ParamTy.brtable]
  ++ mkGlobalField "local_get" [ParamTy.u32]
  ++ mkGlobalField "local_set" [ParamTy.u32]
  ++ mkGlobalField "local_tee" [ParamTy.u32]
  ++ mkGlobalField "global_get" [ParamTy.u32]
  ++ mkGlobalField "global_set" [ParamTy.u32]
  ++ mkGlobalField "call" [ParamTy.u32]
  ++ mkGlobalField "call_indirect" [ParamTy.u32, ParamTy.u32, ParamTy.u8]
  ++ mkNonMvp "sign_extension" "i32_extend8_s" []
  ++ mkNonMvp "sign_extension" "i32_extend16_s" []
  ++ mkNonMvp "sign_extension" "i64_extend8_s" []
  ++ mkNonMvp "sign_extension" "i64_extend16_s" []
  ++ mkNonMvp "sign_extension" "i64_extend32_s" []
  ++ mkNonMvp "saturating_float_to_int" "i32_trunc_sat_f32_s" []
  ++ mkNonMvp "saturating_float_to_int" "i32_trunc_sat_f32_u" []
  ++ mkNonMvp "saturating_float_to_int" "i32_trunc_sat_f64_s" []
  ++ mkNonMvp "saturating_float_to_int" "i32_trunc_sat_f64_u" []
  ++ mkNonMvp "saturating_float_to_int" "i64_trunc_sat_f32_s" []
  ++ mkNonMvp "saturating_float_to_int" "i64_trunc_sat_f32_u" []
  ++ mkNonMvp "saturating_float_to_int" "i64_trunc_sat_f64_s" []
  ++ mkNonMvp "saturating_float_to_int" "i64_trunc_sat_f64_u" []
  ++ mkNonMvp "bulk_memory" "memory_init" [ParamTy.u32, ParamTy.u32]
  ++ mkNonMvp "bulk_memory" "data_drop" [ParamTy.u32]
  ++ mkNonMvp "bulk_memory" "memory_copy" [ParamTy.u32, ParamTy.u32]
  ++ mkNonMvp "bulk_memory" "memory_fill" [ParamTy.u32]
  ++ mkNonMvp "tail_call" "return_call" [ParamTy.u32]
  ++ mkNonMvp "tail_call" "return_call_indirect" [ParamTy.u32, ParamTy.u32]

/-- The effect of one generated visitor body when invoked with the given
immediate arguments: the calls it performs before returning `Ok(())`.
Every generated body returns `Ok(())` at its end; the `?` on the inner
call only propagates failures of the assembler layer itself. -/
def runEntry (e : Entry) (args : List Arg) : List Call :=
  match e.body with
  | Body.masmNoArg p => [⟨"masm", p, []⟩]
  | Body.masmForward p => [⟨"masm", p, args⟩]
  | Body.selfForward p => [⟨"self", p, args⟩]
  | Body.accept => []

/-- Invoke the visitor method of the given name with the given immediate
arguments: `none` when the implementation defines no such method,
otherwise `some` of the calls the method makes into the assembler layer. -/
def runVisitor (name : String) (args : List Arg) : Option (List Call) :=
  (visitorTable.find? fun e => e.name == name).map fun e => runEntry e args

/-! Helper lemmas relating the embedded Rust `join` to the library's
`String.intercalate`. -/

/-- Tail of a separated join: the separator before every element. -/
def strJoinTail (s : String) : List String → String
  | [] => ""
  | a :: as => s ++ a ++ strJoinTail s as

theorem intercalate_go_eq (s : String) : ∀ (as : List String) (acc : String),
    String.intercalate.go acc s as = acc ++ strJoinTail s as := by
  intro as
  induction as with
  | nil => intro acc; simp [String.intercalate.go, strJoinTail]
  | cons b bs ih =>
      intro acc
      simp [String.intercalate.go, strJoinTail, ih, String.append_assoc]

theorem strJoin_cons_eq (s : String) : ∀ (as : List String) (a : String),
    strJoin s (a :: as) = a ++ strJoinTail s as := by
  intro as
  induction as with
  | nil => intro a; simp [strJoin, strJoinTail]
  | cons b bs ih => intro a; simp [strJoin, strJoinTail, ih, String.append_assoc]

theorem strJoin_eq_intercalate (l : List String) :
    strJoin "," l = String.intercalate "," l := by
  cases l with
  | nil => rfl
  | cons a as => simp [String.intercalate, intercalate_go_eq, strJoin_cons_eq]

/-! Claim theorems. -/

/-- C1: divergence theorem. The claim says every non-MVP instruction makes
translation fail with an `UnsupportedOperator` fatal failure when first
visited and that no visitor for a non-MVP instruction returns success.
The generated implementation does the opposite: the generic arm of
`impl_visit_operator` gives every non-`@mvp` operator a visitor that logs
a trace line and returns `Ok(())` — success — emitting no code at all,
contradicting the macro's own doc comment ("panics when matching
an unsupported operator").  Concretely, visiting `i32.extend8_s`
(sign-extension proposal) succeeds with no emitted call, and every
non-MVP entry of the table has that same trace-and-accept body. -/
theorem c1_non_mvp_visitors_return_ok :
    runVisitor "visit_i32_extend8_s" [] = some [] ∧
    (visitorTable.all fun e => (e.proposal == "mvp") || (e.body == Body.accept)) = true := by
  exact ⟨by decide, by decide⟩

/-- C2: counterexample. The visitor for `i32.load` receives the `MemArg`
immediate (byte offset 16, alignment 2) but invokes the assembler
primitive `_load` with an empty argument list: no call made by the
visitor carries the `MemArg`, so the immediate is not "passed unchanged
as an argument of the call" as the claim states. -/
theorem c2_memarg_counterexample :
    runVisitor "visit_i32_load" [Arg.memarg 16 2] = some [Call.mk "masm" "_load" []] ∧
    (((runVisitor "visit_i32_load" [Arg.memarg 16 2]).getD []).any
      fun c => c.args.contains (Arg.memarg 16 2)) = false := by
  exact ⟨by decide, by decide⟩

/-- Expected visitor-name/primitive pairs for all 23 memory-access
visitor methods that `map_wasm_operators` generates with a `MemArg`
parameter. -/
def memVisitors : List (String × String) :=
  [("visit_i32_load", "_load"), ("visit_i64_load", "_load"),
   ("visit_f32_load", "_load"), ("visit_f64_load", "_load"),
   ("visit_i32_load8_s", "_load8"), ("visit_i64_load8_s", "_load8"),
   ("visit_i32_load8_u", "_load8"), ("visit_i64_load8_u", "_load8"),
   ("visit_i32_load16_s", "_load16"), ("visit_i64_load16_s", "_load16"),
   ("visit_i32_load16_u", "_load16"), ("visit_i64_load16_u", "_load16"),
   ("visit_i64_load32_s", "_load32"), ("visit_i64_load32_u", "_load32"),
   ("visit_i32_store8", "_store8"), ("visit_i64_store8", "_store8"),
   ("visit_i32_store16", "_store16"), ("visit_i64_store16", "_store16"),
   ("visit_i32_store", "_store"), ("visit_i64_store", "_store"),
   ("visit_f32_store", "_store"), ("visit_f64_store", "_store"),
   ("visit_i64_store32", "_store32")]

/-- C2: amended claim. Every memory-access visitor (every generated
visitor with a `MemArg` parameter — exactly the 23 in `memVisitors`)
invokes the assembler primitive corresponding to its instruction, but
with an empty argument list: the `MemArg` immediate is accepted by the
visitor and discarded, not forwarded. -/
theorem c2_memarg_discarded :
    (memVisitors.all fun p =>
      runVisitor p.1 [Arg.memarg 16 2] == some [Call.mk "masm" p.2 []]) = true ∧
    (visitorTable.all fun e =>
      !(e.params.contains ParamTy.memarg) ||
        (memVisitors.map Prod.fst).contains e.name) = true := by
  exact ⟨by decide, by decide⟩

/-- C3: counterexample. For both integer widths the signed and the
unsigned shift-right visitors dispatch identically — both are defined and
both invoke the same primitive — contradicting the claim that `shr_s`
maps to a different assembler primitive than `shr_u`. -/
theorem c3_shr_counterexample :
    runVisitor "visit_i32_shr_s" [] = runVisitor "visit_i32_shr_u" [] ∧
    runVisitor "visit_i64_shr_s" [] = runVisitor "visit_i64_shr_u" [] ∧
    runVisitor "visit_i32_shr_s" [] ≠ none ∧
    runVisitor "visit_i64_shr_s" [] ≠ none := by
  exact ⟨by decide, by decide, by decide, by decide⟩

/-- C3: amended claim. For both integer widths, `shr_s` and `shr_u` map
to one and the same assembler primitive `_shr`: the `integer:` group of
the `map_wasm_operators!` invocation appends the `_s`/`_u` suffixes while
keeping a single target primitive, so shifts do not diverge by
signedness. -/
theorem c3_shr_same_primitive :
    runVisitor "visit_i32_shr_s" [] = some [Call.mk "masm" "_shr" []] ∧
    runVisitor "visit_i64_shr_s" [] = some [Call.mk "masm" "_shr" []] ∧
    runVisitor "visit_i32_shr_u" [] = some [Call.mk "masm" "_shr" []] ∧
    runVisitor "visit_i64_shr_u" [] = some [Call.mk "masm" "_shr" []] := by
  exact ⟨by decide, by decide, by decide, by decide⟩

/-- C4: for division, remainder, less-than and greater-than, at both
integer widths, the signed variant and the unsigned variant each have
their own visitor entry and invoke distinct assembler primitives
(`_sdiv`/`_div`, `_smod`/`_mod`, `_slt`/`_lt`, `_sgt`/`_gt`). -/
theorem c4_signed_unsigned_distinct :
    ([("div", "_sdiv", "_div"), ("rem", "_smod", "_mod"),
      ("lt", "_slt", "_lt"), ("gt", "_sgt", "_gt")].all fun t =>
      ["i32", "i64"].all fun w =>
        (runVisitor ("visit_" ++ w ++ "_" ++ t.1 ++ "_s") []
            == some [Call.mk "masm" t.2.1 []]) &&
        (runVisitor ("visit_" ++ w ++ "_" ++ t.1 ++ "_u") []
            == some [Call.mk "masm" t.2.2 []]) &&
        (t.2.1 != t.2.2)) = true := by
  decide

/-- C5: for add, sub, mul, eq and ne the i32 visitor and the i64 visitor
invoke the same assembler primitive (named after the operation), and no
signedness-suffixed variant of these operations exists in the mapping. -/
theorem c5_sign_agnostic_same_primitive :
    (["add", "sub", "mul", "eq", "ne"].all fun op =>
      (runVisitor ("visit_i32_" ++ op) [] == some [Call.mk "masm" ("_" ++ op) []]) &&
      (runVisitor ("visit_i64_" ++ op) [] == runVisitor ("visit_i32_" ++ op) []) &&
      (runVisitor ("visit_i32_" ++ op ++ "_s") [] == none) &&
      (runVisitor ("visit_i32_" ++ op ++ "_u") [] == none) &&
      (runVisitor ("visit_i64_" ++ op ++ "_s") [] == none) &&
      (runVisitor ("visit_i64_" ++ op ++ "_u") [] == none)) = true := by
  decide

/-- C6: the 32-bit-narrowing memory instructions exist only at the 64-bit
integer type: `i64.load32_s`, `i64.load32_u` and `i64.store32` have
visitor entries invoking `_load32`/`_store32`, while no `i32` variant of
`load32` or `store32` exists in the dispatch mapping. -/
theorem c6_narrowing_only_i64 :
    runVisitor "visit_i64_load32_s" [Arg.memarg 0 0] = some [Call.mk "masm" "_load32" []] ∧
    runVisitor "visit_i64_load32_u" [Arg.memarg 0 0] = some [Call.mk "masm" "_load32" []] ∧
    runVisitor "visit_i64_store32" [Arg.memarg 0 0] = some [Call.mk "masm" "_store32" []] ∧
    runVisitor "visit_i32_load32_s" [Arg.memarg 0 0] = none ∧
    runVisitor "visit_i32_load32_u" [Arg.memarg 0 0] = none ∧
    runVisitor "visit_i32_store32" [Arg.memarg 0 0] = none := by
  exact ⟨by decide, by decide, by decide, by decide, by decide, by decide⟩

/-- C10: every `ge` visitor (i32/i64 signed and unsigned, f32, f64)
invokes the strict signed greater-than primitive `_sgt`, and every `le`
visitor invokes the strict signed less-than primitive `_slt`. -/
theorem c10_ge_le_map_to_strict_signed :
    (["i32_ge_s", "i32_ge_u", "i64_ge_s", "i64_ge_u", "f32_ge", "f64_ge"].all fun n =>
      runVisitor ("visit_" ++ n) [] == some [Call.mk "masm" "_sgt" []]) = true ∧
    (["i32_le_s", "i32_le_u", "i64_le_s", "i64_le_u", "f32_le", "f64_le"].all fun n =>
      runVisitor ("visit_" ++ n) [] == some [Call.mk "masm" "_slt" []]) = true := by
  exact ⟨by decide, by decide⟩

/-- C7: for every function descriptor, `signature()` is exactly the name
followed by the ordered parameter type names joined by commas and wrapped
in parentheses — no argument names, no return type; the zero-parameter
case gives `name()`, e.g. `run_revert` yields `"run_revert()"`. -/
theorem c7_signature_format :
    (∀ (nm : String) (ps : List Param),
        (Abi.mk nm ps).signature = nm ++ "(" ++ String.intercalate "," (ps.map Param.ty) ++ ")") ∧
    (∀ nm : String, (Abi.mk nm []).signature = nm ++ "()") ∧
    (Abi.mk "run_revert" []).signature = "run_revert()" := by
  refine ⟨fun nm ps => ?_, fun nm => ?_, by decide⟩
  · unfold Abi.signature
    rw [strJoin_eq_intercalate]
  · simp [Abi.signature, strJoin, String.append_assoc]

/-- C8: for every function descriptor, `selector()` is the first 4 bytes
of the 32-byte Keccak-256 digest of the byte encoding of `signature()`;
the digest is always 32 bytes, and the selector is always exactly 4
bytes, for input of any length (the computation is a total function). -/
theorem c8_selector_is_digest_prefix :
    (∀ a : Abi, a.selector = (keccak256 (strBytes a.signature)).take 4) ∧
    (∀ bs : List Nat, (keccak256 bs).length = 32) ∧
    (∀ bs : List Nat, (parse bs).length = 4) ∧
    (∀ a : Abi, a.selector.length = 4) := by
  refine ⟨fun a => rfl, fun bs => by simp [keccak256], fun bs => by simp [parse, keccak256],
    fun a => by simp [Abi.selector, parse, keccak256]⟩

/-- C9: amended claim. `selector()` is a deterministic pure function of
the pair (name, ordered parameter type names): any two descriptors that
agree on the name and on the ordered parameter types — whatever their
argument names — yield identical selectors.  (The claim's second half,
that descriptors differing in name or a parameter type always yield
different selectors, is false: see the counterexample theorem.) -/
theorem c9_selector_determined_by_name_and_types (a b : Abi)
    (h1 : a.name = b.name) (h2 : a.inputs.map Param.ty = b.inputs.map Param.ty) :
    a.selector = b.selector := by
  unfold Abi.selector Abi.signature
  rw [h1, h2]

/-- C9: witness for the amended claim at concrete descriptors that differ
only in argument names. -/
theorem c9_selector_determined_witness :
    (Abi.mk "transfer" [Param.mk "dst" "address", Param.mk "amount" "uint256"]).selector =
      (Abi.mk "transfer" [Param.mk "to" "address", Param.mk "value" "uint256"]).selector :=
  c9_selector_determined_by_name_and_types
    (Abi.mk "transfer" [Param.mk "dst" "address", Param.mk "amount" "uint256"])
    (Abi.mk "transfer" [Param.mk "to" "address", Param.mk "value" "uint256"]) rfl rfl

set_option maxRecDepth 1000000 in
/-- C9: counterexample to the claim as stated.  The well-formed
descriptors `burn(uint256)` and `collate_propagate_storage(bytes16)`
differ in their names (and parameter types), yet their 4-byte selectors
are equal — truncating the Keccak-256 digest to 4 bytes admits
collisions, so "no false stability" does not hold. -/
theorem c9_selector_collision :
    (Abi.mk "burn" [Param.mk "amount" "uint256"]).name ≠
      (Abi.mk "collate_propagate_storage" [Param.mk "x" "bytes16"]).name ∧
    (Abi.mk "burn" [Param.mk "amount" "uint256"]).selector =
      (Abi.mk "collate_propagate_storage" [Param.mk "x" "bytes16"]).selector := by
  exact ⟨by decide, by decide⟩
